import Mathlib

/-!
Verification development for the FileStream bot (src/index.js).

The source is a single JavaScript program: a Telegram client ingests media
messages (`handleFile`), forwards them to a storage channel, registers a
record in the in-memory `fileStore` Map under a key derived from the media
object's id, and an Express server serves `/file/:id` and `/watch/:id` from
that registry.

This file embeds the registry data model, the key codec, the ingestion
pipeline and the two HTTP handlers as pure Lean functions.  External
effects (forwarding a message, fetching a message by id, downloading media
bytes) are passed in as explicit parameters: a successful call is `.ok v`,
a thrown error is `.error msg`, matching the JavaScript `try`/`catch`
boundaries in the source.  The strings involved (decimal ids, names, MIME
types) contain only plain characters, so Lean `String` models JavaScript
strings exactly; `x.toString()` on a numeric id is `Nat.repr`.
-/

/-! ## Key codec (src/index.js lines 61-63, 73-79, 136-137, 302)

`generateHash(fileId) = fileId.slice(-6)`: the last six characters of the
decimal string, or the whole string when it is shorter.  The store key is
`hash + file.id`: the hash followed by the full decimal id.  The watch
handler splits a key back into `id.slice(0, 6)` and `id.slice(6)`.
-/

/-- JavaScript `s.slice(-n)`: the last `n` characters of `s` (all of `s`
when `s.length ≤ n`). -/
def sliceLast (s : String) (n : Nat) : String :=
  ⟨s.data.drop (s.data.length - n)⟩

/-- JavaScript `s.slice(0, n)`: the first `n` characters of `s`. -/
def sliceTo (s : String) (n : Nat) : String :=
  ⟨s.data.take n⟩

/-- JavaScript `s.slice(n)`: everything after the first `n` characters. -/
def sliceFrom (s : String) (n : Nat) : String :=
  ⟨s.data.drop n⟩

/-- `generateHash` from src/index.js lines 61-63: `fileId.slice(-6)`. -/
def generateHash (fileId : String) : String :=
  sliceLast fileId 6

/-- The store key built at src/index.js lines 136-137:
`generateHash(file.id.toString()) + file.id`. -/
def storeKey (fileId : Nat) : String :=
  generateHash (Nat.repr fileId) ++ Nat.repr fileId

/-- The split performed by the watch handler at src/index.js line 302:
`(id.slice(0, 6), id.slice(6))`. -/
def splitKey (key : String) : String × String :=
  (sliceTo key 6, sliceFrom key 6)

/-- `getFileLink` from src/index.js lines 73-75, with the configured
`BASE_URL` made an explicit parameter. -/
def getFileLink (baseUrl hash fileId : String) : String :=
  baseUrl ++ "/file/" ++ hash ++ fileId

/-- `getWatchLink` from src/index.js lines 77-79. -/
def getWatchLink (baseUrl hash fileId : String) : String :=
  baseUrl ++ "/watch/" ++ hash ++ fileId

/-! ## Decimal representation helpers

`Nat.repr` is `(Nat.toDigits 10 n).asString`, a fuel-based loop.
`digitsList` is the same recursion without fuel; the theorems below show
the two agree and that the decimal string determines the number
(injectivity), which the key codec's collision-freedom rests on.
-/

/-- Decimal digit characters of `n`, most significant first: the fuel-free
form of `Nat.toDigitsCore 10`. -/
def digitsList (n : Nat) : List Char :=
  if _h : n < 10 then [Nat.digitChar n]
  else digitsList (n / 10) ++ [Nat.digitChar (n % 10)]
  termination_by n
  decreasing_by
    exact Nat.div_lt_self (by omega) (by omega)

/-- Reading a digit character back: left inverse of `Nat.digitChar` below 10. -/
def charVal (c : Char) : Nat :=
  c.toNat - 48

/-- Decimal value of a digit string, most significant first. -/
def digitsVal (l : List Char) : Nat :=
  l.foldl (fun a c => 10 * a + charVal c) 0

/-! ## Data model (src/index.js lines 27-28, 83-120)

The registry `fileStore` is a JavaScript `Map` from keys to records
`{fileId, fileName, fileSize, mimeType, messageId, fileType}`.  A `Map` is
an insertion-ordered dictionary: `set` replaces the value in place when the
key is present and appends otherwise; it is modelled here as an
association list with exactly those semantics.

Media objects follow the Telegram shapes the code reads: documents, videos
and audios carry `id`, `size`, a required `mimeType` string (possibly
empty) and an attribute list that may contain a file name; photos carry
`id` and a list of size variants.
-/

/-- One entry of a media object's `attributes` array; only the `fileName`
field is ever read (absent on non-filename attributes). -/
structure DocAttribute where
  fileName : Option String
deriving DecidableEq

/-- A document/video/audio media object as read by `handleFile`. -/
structure MediaDoc where
  id : Nat
  size : Nat
  mimeType : String
  attributes : List DocAttribute
deriving DecidableEq

/-- A photo media object: `id` and its size variants' byte counts. -/
structure PhotoMedia where
  id : Nat
  sizes : List Nat
deriving DecidableEq

/-- An inbound Telegram message as read by `handleFile`: its id, chat id,
and the optional media fields the handlers dispatch on. -/
structure InMessage where
  id : Nat
  chatId : Nat
  document : Option MediaDoc
  video : Option MediaDoc
  audio : Option MediaDoc
  photo : Option PhotoMedia
deriving DecidableEq

/-- The record stored in `fileStore` (src/index.js lines 139-146). -/
structure FileRecord where
  fileId : String
  fileName : String
  fileSize : Nat
  mimeType : String
  messageId : Nat
  fileType : String
deriving DecidableEq

/-- The registry: `const fileStore = new Map()` (line 28). -/
abbrev Store : Type := List (String × FileRecord)

/-- The registry at process start: empty. -/
def emptyStore : Store := []

/-- `fileStore.get(k)`. -/
def mapGet : Store → String → Option FileRecord
  | [], _ => none
  | (k', v) :: rest, k => if k' = k then some v else mapGet rest k

/-- `fileStore.set(k, v)`: replaces the value in place when `k` is already
present, appends otherwise (JavaScript `Map` semantics). -/
def mapSet : Store → String → FileRecord → Store
  | [], k, v => [(k, v)]
  | (k', v') :: rest, k, v =>
    if k' = k then (k', v) :: rest else (k', v') :: mapSet rest k v

/-! ## Ingestion pipeline (`handleFile`, src/index.js lines 83-177) -/

/-- JavaScript `a || b` on strings: `a` unless it is falsy (empty). -/
def jsOr (a b : String) : String :=
  if a = "" then b else a

/-- JavaScript truthiness of an optional string property: defined and
non-empty. -/
def jsTruthy : Option String → Bool
  | none => false
  | some s => !(s == "")

/-- `file.attributes?.find((a) => a.fileName)?.fileName || dflt`
(lines 96, 101, 106). -/
def attrFileName (attrs : List DocAttribute) (dflt : String) : String :=
  match attrs.find? (fun a => jsTruthy a.fileName) with
  | some a => (a.fileName).getD dflt
  | none => dflt

/-- `file.sizes?.[file.sizes.length - 1]?.size || 0` (line 112): the last
size variant, or 0 when there is none. -/
def photoSize (sizes : List Nat) : Nat :=
  (sizes.getLast?).getD 0

/-- Result of the classification/extraction block (lines 94-120). -/
inductive Extracted where
  | unsupported
  | missingMedia
  | ok (fileId : Nat) (fileName : String) (fileSize : Nat) (mimeType : String)
deriving DecidableEq

/-- Lines 94-120 of `handleFile`: dispatch on `fileType` and read the media
object's descriptive fields.  `missingMedia` models the JavaScript
`TypeError` thrown when the dispatched-on field is `undefined`; the event
handlers (lines 417-442) only call `handleFile` when the field is present,
and the `try`/`catch` turns the throw into an error reply. -/
def extractInfo (msg : InMessage) (fileType : String) (now : Nat) : Extracted :=
  if fileType = "document" then
    match msg.document with
    | none => .missingMedia
    | some file =>
      .ok file.id (attrFileName file.attributes ("file_" ++ Nat.repr now))
        file.size file.mimeType
  else if fileType = "video" then
    match msg.video with
    | none => .missingMedia
    | some file =>
      .ok file.id (attrFileName file.attributes ("video_" ++ Nat.repr now ++ ".mp4"))
        file.size (jsOr file.mimeType "video/mp4")
  else if fileType = "audio" then
    match msg.audio with
    | none => .missingMedia
    | some file =>
      .ok file.id (attrFileName file.attributes ("audio_" ++ Nat.repr now ++ ".mp3"))
        file.size (jsOr file.mimeType "audio/mpeg")
  else if fileType = "photo" then
    match msg.photo with
    | none => .missingMedia
    | some file =>
      .ok file.id ("photo_" ++ Nat.repr now ++ ".jpg") (photoSize file.sizes) "image/jpeg"
  else .unsupported

/-- Observable outcome of one `handleFile` run: which reply path was taken
and, on success, the key, the stored record and the two links composed for
the success reply (lines 148-167). -/
inductive IngestResult where
  | rejected
  | failure (errMsg : String)
  | success (key : String) (record : FileRecord) (directLink watchLink : String)
deriving DecidableEq

/-- Whether an ingestion run reached the success reply. -/
def isSuccess : IngestResult → Bool
  | .success _ _ _ _ => true
  | _ => false

/-- The catch-handler reply text, line 173: `❌ Error: ${error.message}`. -/
def errorReply (msg : String) : String :=
  "❌ Error: " ++ msg

/-- Message of the `TypeError` raised when the dispatched media field is
absent; it only feeds the catch-handler reply. -/
def missingMediaError : String :=
  "Cannot read properties of undefined"

/-- `handleFile` (lines 83-177).  `relay` stands for the
`client.forwardMessages(BIN_CHANNEL, ...)` call of line 128: `.ok i` means
the forwarded message id `forwardedMsg[0].id` is `i`, `.error e` a thrown
upstream error, caught at line 170.  `now` stands for `Date.now()`.
Returns the registry after the run and the observable outcome. -/
def handleFile (baseUrl : String) (store : Store) (msg : InMessage)
    (fileType : String) (relay : Except String Nat) (now : Nat) :
    Store × IngestResult :=
  match extractInfo msg fileType now with
  | .unsupported => (store, .rejected)
  | .missingMedia => (store, .failure (errorReply missingMediaError))
  | .ok fileId fileName fileSize mimeType =>
    match relay with
    | .error e => (store, .failure (errorReply e))
    | .ok forwardedMsgId =>
      let hash := generateHash (Nat.repr fileId)
      let key := hash ++ Nat.repr fileId
      let record : FileRecord :=
        { fileId := Nat.repr fileId, fileName := fileName, fileSize := fileSize,
          mimeType := mimeType, messageId := forwardedMsgId, fileType := fileType }
      (mapSet store key record,
        .success key record (getFileLink baseUrl hash (Nat.repr fileId))
          (getWatchLink baseUrl hash (Nat.repr fileId)))

/-! ## Retrieval pipeline (`/file/:id`, src/index.js lines 253-292) -/

/-- A message fetched back from the storage channel, as read by the
retrieval handler: only its optional media fields are inspected. -/
structure StoredMessage where
  document : Option MediaDoc
  video : Option MediaDoc
  audio : Option MediaDoc
  photo : Option PhotoMedia
deriving DecidableEq

/-- The media-presence check of lines 273-277: some media field is set. -/
def hasMedia (m : StoredMessage) : Bool :=
  m.document.isSome || m.video.isSome || m.audio.isSome || m.photo.isSome

/-- `/file/:id` responses by status: 404 with a body, 200 with the three
headers set at lines 283-285 and the payload, or 500. -/
inductive HttpResponse where
  | notFound (body : String)
  | ok (contentType contentDisposition : String) (contentLength : Nat) (body : List Nat)
  | serverError (body : String)
deriving DecidableEq

/-- The `/file/:id` handler (lines 253-292).  `fetch` stands for
`client.getMessages(BIN_CHANNEL, {ids: [messageId]})` and `download` for
`client.downloadMedia(message, {})`; `.error` marks a thrown error, which
the catch at line 288 converts to a 500. -/
def getFile (store : Store) (id : String)
    (fetch : Nat → Except String (List StoredMessage))
    (download : StoredMessage → Except String (List Nat)) : HttpResponse :=
  match mapGet store id with
  | none => .notFound "File not found"
  | some fileData =>
    match fetch fileData.messageId with
    | .error _ => .serverError "Error serving file"
    | .ok messages =>
      match messages with
      | [] => .notFound "File not found in storage"
      | message :: _ =>
        if hasMedia message then
          match download message with
          | .error _ => .serverError "Error serving file"
          | .ok buffer =>
            .ok (jsOr fileData.mimeType "application/octet-stream")
              ("attachment; filename=\"" ++ fileData.fileName ++ "\"")
              buffer.length buffer
        else .notFound "No media found"

/-! ## Watch page (`/watch/:id`, src/index.js lines 294-355) -/

/-- Which player element the watch page embeds (lines 338-344): a video or
audio tag around the direct link, or no preview. -/
def watchEmbed (fileType : String) : String :=
  if fileType = "video" then "video"
  else if fileType = "audio" then "audio"
  else "none"

/-- `/watch/:id` responses: 404, or the rendered page abstracted to its
contractual parts — the title (the record's file name), the reconstructed
direct link it embeds (line 302), and which embed element is chosen. -/
inductive WatchResponse where
  | notFound (body : String)
  | page (title : String) (directLink : String) (embed : String)
deriving DecidableEq

/-- The `/watch/:id` handler (lines 294-355). -/
def getWatch (baseUrl : String) (store : Store) (id : String) : WatchResponse :=
  match mapGet store id with
  | none => .notFound "File not found"
  | some fileData =>
    .page fileData.fileName
      (getFileLink baseUrl (sliceTo id 6) (sliceFrom id 6))
      (watchEmbed fileData.fileType)

/-! ## Concrete fixtures used by the witness theorems -/

/-- A sample PDF document media object. -/
def pdfDoc : MediaDoc :=
  { id := 123456, size := 1024, mimeType := "application/pdf",
    attributes := [{ fileName := some "report.pdf" }] }

/-- A sample inbound message carrying `pdfDoc`. -/
def pdfMessage : InMessage :=
  { id := 10, chatId := 7, document := some pdfDoc,
    video := none, audio := none, photo := none }

/-- The record `handleFile` stores for `pdfMessage` when the forward
returns message id 5. -/
def pdfRecord : FileRecord :=
  { fileId := "123456", fileName := "report.pdf", fileSize := 1024,
    mimeType := "application/pdf", messageId := 5, fileType := "document" }

/-- A registry holding `pdfRecord` under its key. -/
def pdfStore : Store := [("123456123456", pdfRecord)]

/-- A stored message carrying `pdfDoc`, as fetched back from storage. -/
def pdfStoredMessage : StoredMessage :=
  { document := some pdfDoc, video := none, audio := none, photo := none }

/-- A stored message with every media field absent. -/
def emptyStoredMessage : StoredMessage :=
  { document := none, video := none, audio := none, photo := none }

/-- A record for a media object whose decimal id has fewer than 6 digits. -/
def shortRecord : FileRecord :=
  { fileId := "12", fileName := "tiny.bin", fileSize := 2,
    mimeType := "", messageId := 9, fileType := "document" }

/-- A registry whose single key is shorter than 6 characters. -/
def shortKeyStore : Store := [("1212", shortRecord)]

/-! # Theorems -/

/-! ## Decimal representation facts -/

theorem digitsList_lt (n : Nat) (h : n < 10) : digitsList n = [Nat.digitChar n] := by
  rw [digitsList]
  simp [h]

theorem digitsList_ge (n : Nat) (h : ¬ n < 10) :
    digitsList n = digitsList (n / 10) ++ [Nat.digitChar (n % 10)] := by
  conv_lhs => rw [digitsList]
  simp [h]

theorem toDigitsCore_eq_digitsList :
    ∀ (fuel n : Nat) (ds : List Char), n < fuel →
      Nat.toDigitsCore 10 fuel n ds = digitsList n ++ ds := by
  intro fuel
  induction fuel with
  | zero => intro n ds h; omega
  | succ f ih =>
    intro n ds h
    show (if n / 10 = 0 then Nat.digitChar (n % 10) :: ds
          else Nat.toDigitsCore 10 f (n / 10) (Nat.digitChar (n % 10) :: ds))
        = digitsList n ++ ds
    by_cases hd : n / 10 = 0
    · have hn : n < 10 := by omega
      rw [if_pos hd, digitsList_lt n hn, Nat.mod_eq_of_lt hn]
      rfl
    · have hn : ¬ n < 10 := by
        intro hlt
        exact hd (Nat.div_eq_of_lt hlt)
      have hdf : n / 10 < f := by
        have h1 : n / 10 < n := Nat.div_lt_self (by omega) (by omega)
        omega
      rw [if_neg hd, ih (n / 10) (Nat.digitChar (n % 10) :: ds) hdf,
        digitsList_ge n hn, List.append_assoc]
      rfl

theorem repr_eq_digitsList (n : Nat) : (Nat.repr n).data = digitsList n := by
  show (Nat.toDigitsCore 10 (n + 1) n []).asString.data = digitsList n
  rw [toDigitsCore_eq_digitsList (n + 1) n [] (Nat.lt_succ_self n)]
  simp [List.asString]

theorem charVal_digitChar (n : Nat) (h : n < 10) :
    charVal (Nat.digitChar n) = n := by
  interval_cases n <;> rfl

theorem foldl_digits_append (l : List Char) (c : Char) (a : Nat) :
    List.foldl (fun a c => 10 * a + charVal c) a (l ++ [c])
      = 10 * List.foldl (fun a c => 10 * a + charVal c) a l + charVal c := by
  rw [List.foldl_append]
  rfl

theorem digitsVal_digitsList (n : Nat) : digitsVal (digitsList n) = n := by
  induction n using Nat.strong_induction_on with
  | _ n ih =>
    by_cases h : n < 10
    · rw [digitsList_lt n h]
      show 10 * 0 + charVal (Nat.digitChar n) = n
      rw [charVal_digitChar n h]
      omega
    · rw [digitsList_ge n h]
      unfold digitsVal
      rw [foldl_digits_append]
      have hdiv : n / 10 < n := Nat.div_lt_self (by omega) (by omega)
      have ihd := ih (n / 10) hdiv
      unfold digitsVal at ihd
      rw [ihd, charVal_digitChar (n % 10) (Nat.mod_lt n (by omega))]
      omega

theorem repr_injective {m n : Nat} (h : Nat.repr m = Nat.repr n) : m = n := by
  have hd : digitsList m = digitsList n := by
    rw [← repr_eq_digitsList, ← repr_eq_digitsList, h]
  calc m = digitsVal (digitsList m) := (digitsVal_digitsList m).symm
    _ = digitsVal (digitsList n) := by rw [hd]
    _ = n := digitsVal_digitsList n

/-! ## Key codec facts -/

theorem sliceLast_length (s : String) (n : Nat) :
    (sliceLast s n).data.length = s.data.length - (s.data.length - n) := by
  show (s.data.drop (s.data.length - n)).length = _
  rw [List.length_drop]

/-- Hash-prefixed keys determine the identifier string: if two identifier
strings give the same `hash ++ id` key, the strings are equal. -/
theorem hash_append_injective {s1 s2 : String}
    (h : generateHash s1 ++ s1 = generateHash s2 ++ s2) : s1 = s2 := by
  have hd : (generateHash s1).data ++ s1.data = (generateHash s2).data ++ s2.data := by
    have := congrArg String.data h
    rwa [String.data_append, String.data_append] at this
  have hlen : (generateHash s1).data.length + s1.data.length
      = (generateHash s2).data.length + s2.data.length := by
    have := congrArg List.length hd
    simpa using this
  have h1 : (generateHash s1).data.length = s1.data.length - (s1.data.length - 6) :=
    sliceLast_length s1 6
  have h2 : (generateHash s2).data.length = s2.data.length - (s2.data.length - 6) :=
    sliceLast_length s2 6
  have hhlen : (generateHash s1).data.length = (generateHash s2).data.length := by omega
  exact String.ext (List.append_inj hd hhlen).2

/-- Recombining the two halves of any split gives back the original
string. -/
theorem sliceTo_append_sliceFrom (k : String) (n : Nat) :
    sliceTo k n ++ sliceFrom k n = k := by
  apply String.ext
  rw [String.data_append]
  show k.data.take n ++ k.data.drop n = k.data
  exact List.take_append_drop n k.data

/-! ## Registry facts -/

theorem mapGet_mapSet_self (m : Store) (k : String) (v : FileRecord) :
    mapGet (mapSet m k v) k = some v := by
  induction m with
  | nil => simp [mapSet, mapGet]
  | cons p rest ih =>
    obtain ⟨k', v'⟩ := p
    by_cases hk : k' = k
    · simp [mapSet, hk, mapGet]
    · simp [mapSet, hk, mapGet, ih]

theorem mapGet_mapSet_ne (m : Store) (k k' : String) (v : FileRecord)
    (h : k ≠ k') : mapGet (mapSet m k v) k' = mapGet m k' := by
  induction m with
  | nil => simp [mapSet, mapGet, h]
  | cons p rest ih =>
    obtain ⟨k0, v0⟩ := p
    by_cases hk : k0 = k
    · subst hk
      simp [mapSet, mapGet, h]
    · simp [mapSet, hk, mapGet, ih]

theorem mapGet_mapSet_isSome (m : Store) (k k' : String) (v : FileRecord)
    (h : (mapGet m k').isSome) : (mapGet (mapSet m k v) k').isSome := by
  by_cases hk : k = k'
  · subst hk
    rw [mapGet_mapSet_self]
    rfl
  · rwa [mapGet_mapSet_ne m k k' v hk]

/-! ## Claim theorems: key codec -/

/-- C1 (counterexample): the round trip fails for identifiers whose
decimal string is shorter than 6 digits.  For `f = 1` the key is `"11"`
(the short hash `"1"` followed by `"1"`), and the watch-handler split
takes the whole key as the hash part and leaves an empty remainder, which
is not `(last6("1"), "1") = ("1", "1")`. -/
theorem splitKey_storeKey_short_fails :
    storeKey 1 = "11" ∧ splitKey (storeKey 1) = ("11", "")
      ∧ splitKey (storeKey 1) ≠ (generateHash (Nat.repr 1), Nat.repr 1) := by
  decide

/-- C1 (amended): for every remote file identifier `f` whose decimal
string has at least 6 digits, splitting the generated key at position 6
recovers exactly the short hash (the last 6 characters of the decimal
string) and the full decimal string.  `storeKey`, `generateHash` and
`splitKey` are total, so identifiers with shorter decimal strings still
produce a deterministic (shorter) hash and key without crashing — but for
those the split does not recover the pair (see the counterexample). -/
theorem splitKey_storeKey (f : Nat) (h : 6 ≤ (Nat.repr f).length) :
    splitKey (storeKey f) = (generateHash (Nat.repr f), Nat.repr f) := by
  have hdata : (storeKey f).data
      = (generateHash (Nat.repr f)).data ++ (Nat.repr f).data := by
    show (generateHash (Nat.repr f) ++ Nat.repr f).data = _
    rw [String.data_append]
  have hlen : (generateHash (Nat.repr f)).data.length = 6 := by
    have hs : (generateHash (Nat.repr f)).data.length
        = (Nat.repr f).data.length - ((Nat.repr f).data.length - 6) :=
      sliceLast_length (Nat.repr f) 6
    have hL : (Nat.repr f).length = (Nat.repr f).data.length := rfl
    omega
  show (sliceTo (storeKey f) 6, sliceFrom (storeKey f) 6) = _
  rw [Prod.mk.injEq]
  constructor
  · apply String.ext
    show (storeKey f).data.take 6 = (generateHash (Nat.repr f)).data
    rw [hdata, List.take_left' hlen]
  · apply String.ext
    show (storeKey f).data.drop 6 = (Nat.repr f).data
    rw [hdata, List.drop_left' hlen]

/-- Witness for `splitKey_storeKey` at the 6-digit identifier 123456. -/
theorem splitKey_storeKey_witness :
    6 ≤ (Nat.repr 123456).length
      ∧ splitKey (storeKey 123456) = (generateHash (Nat.repr 123456), Nat.repr 123456) :=
  ⟨by decide, splitKey_storeKey 123456 (by decide)⟩

/-- C2: distinct remote file identifiers always get distinct keys —
`last6(decimalString(f1)) ++ decimalString(f1)` differs from
`last6(decimalString(f2)) ++ decimalString(f2)` whenever `f1 ≠ f2`,
because the full decimal identifier is appended verbatim. -/
theorem storeKey_injective (f1 f2 : Nat) (h : f1 ≠ f2) :
    storeKey f1 ≠ storeKey f2 := by
  intro hk
  unfold storeKey at hk
  exact h (repr_injective (hash_append_injective hk))

/-- Witness for `storeKey_injective`: identifiers 7 and 1234567. -/
theorem storeKey_injective_witness :
    (7 : Nat) ≠ 1234567 ∧ storeKey 7 ≠ storeKey 1234567 :=
  ⟨by decide, storeKey_injective 7 1234567 (by decide)⟩

/-- C10: for every key present in the registry — of any length, including
keys shorter than 6 characters — the direct link embedded in the watch
page, rebuilt from `id.slice(0, 6)` and `id.slice(6)`, is exactly the
base URL followed by `/file/` and the original key. -/
theorem getWatch_embeds_original_key (baseUrl : String) (store : Store)
    (k : String) (r : FileRecord) (h : mapGet store k = some r) :
    getWatch baseUrl store k
      = .page r.fileName (baseUrl ++ "/file/" ++ k) (watchEmbed r.fileType) := by
  unfold getWatch
  rw [h]
  have hlink : getFileLink baseUrl (sliceTo k 6) (sliceFrom k 6)
      = baseUrl ++ "/file/" ++ k := by
    unfold getFileLink
    apply String.ext
    have hk := congrArg String.data (sliceTo_append_sliceFrom k 6)
    rw [String.data_append] at hk
    simp only [String.data_append]
    rw [List.append_assoc, hk]
  rw [hlink]

/-- Witness for `getWatch_embeds_original_key` on a 4-character key. -/
theorem getWatch_embeds_original_key_witness :
    mapGet shortKeyStore "1212" = some shortRecord
      ∧ getWatch "http://h" shortKeyStore "1212"
          = .page shortRecord.fileName ("http://h" ++ "/file/" ++ "1212")
              (watchEmbed shortRecord.fileType) :=
  ⟨by decide, getWatch_embeds_original_key "http://h" shortKeyStore "1212" shortRecord (by decide)⟩

/-! ## Claim theorems: registry and ingestion -/

/-- C3 (counterexample): the registry is not append-only and insertion
under an already-present key does not fail.  Ingesting the same media
object twice (same `file.id`, hence the same key) makes the second
`fileStore.set` silently replace the first record: the second run still
reports success, the registry size stays 1, and the entry under the key
has changed (it now carries the second forwarded message id). -/
theorem registry_overwrite_fails :
    let run1 := handleFile "http://h" emptyStore pdfMessage "document" (.ok 1) 0
    let run2 := handleFile "http://h" run1.1 pdfMessage "document" (.ok 2) 0
    (mapGet run1.1 "123456123456").isSome = true
      ∧ isSuccess run2.2 = true
      ∧ run2.1.length = run1.1.length
      ∧ mapGet run2.1 "123456123456" ≠ mapGet run1.1 "123456123456" := by
  decide

/-- C3 (amended): no operation ever deletes a registry entry — a key
present before an ingestion run is still present after it — but an insert
under an already-present key silently replaces the stored record
(JavaScript `Map.set` semantics) instead of failing with a DuplicateKey
error; this happens exactly when the same media object is ingested
again. -/
theorem registry_keys_persist_set_replaces
    (baseUrl : String) (store : Store) (msg : InMessage) (fileType : String)
    (relay : Except String Nat) (now : Nat) (k : String) (r : FileRecord)
    (h : (mapGet store k).isSome = true) :
    (mapGet (handleFile baseUrl store msg fileType relay now).1 k).isSome = true
      ∧ mapGet (mapSet store k r) k = some r := by
  constructor
  · unfold handleFile
    cases hx : extractInfo msg fileType now with
    | unsupported => exact h
    | missingMedia => exact h
    | ok fid fn fs mt =>
      cases relay with
      | error e => exact h
      | ok mid => exact mapGet_mapSet_isSome store _ k _ h
  · exact mapGet_mapSet_self store k r

/-- Witness for `registry_keys_persist_set_replaces` on `pdfStore`. -/
theorem registry_keys_persist_set_replaces_witness :
    (mapGet pdfStore "123456123456").isSome = true
      ∧ ((mapGet (handleFile "http://h" pdfStore pdfMessage "document" (.ok 6) 0).1
            "123456123456").isSome = true
          ∧ mapGet (mapSet pdfStore "123456123456" shortRecord) "123456123456"
              = some shortRecord) :=
  ⟨by decide,
    registry_keys_persist_set_replaces "http://h" pdfStore pdfMessage "document"
      (.ok 6) 0 "123456123456" shortRecord (by decide)⟩

/-- C4: if the relay-to-storage step (`client.forwardMessages`) throws,
the ingestion run creates no registry entry — the store comes back
unchanged — and the failure is reported to the sender as the
`❌ Error: ...` chat reply.  The exception is caught at the pipeline
boundary: `handleFile` evaluates totally to a reply, the process does not
crash. -/
theorem relay_failure_no_entry
    (baseUrl : String) (store : Store) (msg : InMessage) (fileType : String)
    (e : String) (now fid : Nat) (fn : String) (fs : Nat) (mt : String)
    (hx : extractInfo msg fileType now = .ok fid fn fs mt) :
    handleFile baseUrl store msg fileType (.error e) now
      = (store, .failure (errorReply e)) := by
  unfold handleFile
  rw [hx]

/-- Witness for `relay_failure_no_entry`: ingesting `pdfMessage` while
the forward throws `"NETWORK"`. -/
theorem relay_failure_no_entry_witness :
    extractInfo pdfMessage "document" 0
        = .ok 123456 "report.pdf" 1024 "application/pdf"
      ∧ handleFile "http://h" emptyStore pdfMessage "document" (.error "NETWORK") 0
          = (emptyStore, .failure (errorReply "NETWORK")) :=
  ⟨by decide,
    relay_failure_no_entry "http://h" emptyStore pdfMessage "document" "NETWORK" 0
      123456 "report.pdf" 1024 "application/pdf" (by decide)⟩

/-- C8: an inbound attachment kind other than
document/video/audio/photo takes the rejection-reply branch and nothing
else happens: the registry comes back unchanged (same size), and the
outcome does not depend on the relay — the storage conversation is never
contacted. -/
theorem unsupported_kind_rejected
    (baseUrl : String) (store : Store) (msg : InMessage) (fileType : String)
    (relay : Except String Nat) (now : Nat)
    (h1 : fileType ≠ "document") (h2 : fileType ≠ "video")
    (h3 : fileType ≠ "audio") (h4 : fileType ≠ "photo") :
    handleFile baseUrl store msg fileType relay now = (store, .rejected) := by
  unfold handleFile extractInfo
  simp [h1, h2, h3, h4]

/-- Witness for `unsupported_kind_rejected` at kind `"sticker"`. -/
theorem unsupported_kind_rejected_witness :
    ("sticker" ≠ "document" ∧ "sticker" ≠ "video"
        ∧ "sticker" ≠ "audio" ∧ "sticker" ≠ "photo")
      ∧ handleFile "http://h" pdfStore pdfMessage "sticker" (.ok 3) 0
          = (pdfStore, .rejected) :=
  ⟨⟨by decide, by decide, by decide, by decide⟩,
    unsupported_kind_rejected "http://h" pdfStore pdfMessage "sticker" (.ok 3) 0
      (by decide) (by decide) (by decide) (by decide)⟩

/-- C9: on a successful ingestion the key is derived from the media
object's own id `fid` (`storeKey fid = generateHash(decimal fid) ++
decimal fid`), not from the relayed message's id `mid`; `mid` is stored
separately in the record's `messageId` field, which retrieval later uses
as the remote location. -/
theorem key_from_media_id
    (baseUrl : String) (store : Store) (msg : InMessage) (fileType : String)
    (now mid fid : Nat) (fn : String) (fs : Nat) (mt : String)
    (hx : extractInfo msg fileType now = .ok fid fn fs mt) :
    handleFile baseUrl store msg fileType (.ok mid) now
      = (mapSet store (storeKey fid)
          { fileId := Nat.repr fid, fileName := fn, fileSize := fs,
            mimeType := mt, messageId := mid, fileType := fileType },
        .success (storeKey fid)
          { fileId := Nat.repr fid, fileName := fn, fileSize := fs,
            mimeType := mt, messageId := mid, fileType := fileType }
          (getFileLink baseUrl (generateHash (Nat.repr fid)) (Nat.repr fid))
          (getWatchLink baseUrl (generateHash (Nat.repr fid)) (Nat.repr fid))) := by
  unfold handleFile
  rw [hx]
  rfl

/-- Witness for `key_from_media_id`: `pdfMessage` forwarded as message 5. -/
theorem key_from_media_id_witness :
    extractInfo pdfMessage "document" 0
        = .ok 123456 "report.pdf" 1024 "application/pdf"
      ∧ handleFile "http://h" emptyStore pdfMessage "document" (.ok 5) 0
          = (mapSet emptyStore (storeKey 123456) pdfRecord,
            .success (storeKey 123456) pdfRecord
              (getFileLink "http://h" (generateHash (Nat.repr 123456)) (Nat.repr 123456))
              (getWatchLink "http://h" (generateHash (Nat.repr 123456)) (Nat.repr 123456))) :=
  ⟨by decide,
    key_from_media_id "http://h" emptyStore pdfMessage "document" 0 5 123456
      "report.pdf" 1024 "application/pdf" (by decide)⟩

/-! ## Claim theorems: retrieval -/

/-- C5: for a key present in the registry whose stored message is fetched
back with a media payload present and whose download succeeds,
`/file/:id` responds 200 with Content-Type the record's `mimeType`
(`application/octet-stream` when the record has none, i.e. it is the
empty string), Content-Disposition `attachment; filename="<fileName>"`
with the record's file name, Content-Length the size of the downloaded
payload, and the payload itself as body. -/
theorem retrieval_success_headers
    (store : Store) (k : String) (r : FileRecord)
    (fetch : Nat → Except String (List StoredMessage))
    (download : StoredMessage → Except String (List Nat))
    (m : StoredMessage) (rest : List StoredMessage) (buf : List Nat)
    (h1 : mapGet store k = some r)
    (h2 : fetch r.messageId = .ok (m :: rest))
    (h3 : hasMedia m = true)
    (h4 : download m = .ok buf) :
    getFile store k fetch download
      = .ok (if r.mimeType = "" then "application/octet-stream" else r.mimeType)
          ("attachment; filename=\"" ++ r.fileName ++ "\"")
          buf.length buf := by
  simp only [getFile, h1, h2, h3, h4, jsOr, if_true]

/-- Witness for `retrieval_success_headers` on `pdfStore` with payload
`[10, 20, 30]`. -/
theorem retrieval_success_headers_witness :
    mapGet pdfStore "123456123456" = some pdfRecord
      ∧ getFile pdfStore "123456123456" (fun _ => .ok [pdfStoredMessage])
            (fun _ => .ok [10, 20, 30])
          = .ok (if pdfRecord.mimeType = "" then "application/octet-stream"
                 else pdfRecord.mimeType)
              ("attachment; filename=\"" ++ pdfRecord.fileName ++ "\"")
              ([10, 20, 30] : List Nat).length [10, 20, 30] :=
  ⟨by decide,
    retrieval_success_headers pdfStore "123456123456" pdfRecord
      (fun _ => .ok [pdfStoredMessage]) (fun _ => .ok [10, 20, 30])
      pdfStoredMessage [] [10, 20, 30] (by decide) rfl (by decide) rfl⟩

/-- C6: a key that was never inserted is absent from the registry, and
then `/file/:id` and `/watch/:id` both respond 404 "File not found",
whatever the upstream does — the response does not depend on the
fetch/download effects at all, so the storage conversation is not
contacted. -/
theorem unknown_key_404
    (store : Store) (k : String) (h : mapGet store k = none) :
    ∀ (baseUrl : String) (fetch : Nat → Except String (List StoredMessage))
      (download : StoredMessage → Except String (List Nat)),
      getFile store k fetch download = .notFound "File not found"
        ∧ getWatch baseUrl store k = .notFound "File not found" := by
  intro baseUrl fetch download
  unfold getFile getWatch
  rw [h]
  exact ⟨rfl, rfl⟩

/-- Witness for `unknown_key_404` at the never-inserted key `"zzz"`. -/
theorem unknown_key_404_witness :
    mapGet pdfStore "zzz" = none
      ∧ (getFile pdfStore "zzz" (fun _ => .ok [pdfStoredMessage]) (fun _ => .ok [7])
            = .notFound "File not found"
         ∧ getWatch "http://h" pdfStore "zzz" = .notFound "File not found") :=
  ⟨by decide,
    unknown_key_404 pdfStore "zzz" (by decide) "http://h"
      (fun _ => .ok [pdfStoredMessage]) (fun _ => .ok [7])⟩

/-- C7: for a key present in the registry, if the storage-channel fetch
returns no message (upstream deletion) the response is 404
"File not found in storage", and if it returns a message carrying no
media payload the response is 404 "No media found" — in both cases a
404, not a 500. -/
theorem upstream_gone_404
    (store : Store) (k : String) (r : FileRecord)
    (fetch : Nat → Except String (List StoredMessage))
    (download : StoredMessage → Except String (List Nat))
    (h1 : mapGet store k = some r) :
    (fetch r.messageId = .ok [] →
        getFile store k fetch download = .notFound "File not found in storage")
      ∧ (∀ m rest, fetch r.messageId = .ok (m :: rest) → hasMedia m = false →
          getFile store k fetch download = .notFound "No media found") := by
  constructor
  · intro h2
    simp only [getFile, h1, h2]
  · intro m rest h2 h3
    simp only [getFile, h1, h2, h3, Bool.false_eq_true, if_false]

/-- Witness for `upstream_gone_404`: deleted upstream message, and a
fetched message with no media. -/
theorem upstream_gone_404_witness :
    mapGet pdfStore "123456123456" = some pdfRecord
      ∧ getFile pdfStore "123456123456" (fun _ => .ok []) (fun _ => .ok [7])
          = .notFound "File not found in storage"
      ∧ getFile pdfStore "123456123456" (fun _ => .ok [emptyStoredMessage])
            (fun _ => .ok [7])
          = .notFound "No media found" :=
  ⟨by decide,
    (upstream_gone_404 pdfStore "123456123456" pdfRecord (fun _ => .ok [])
        (fun _ => .ok [7]) (by decide)).1 rfl,
    (upstream_gone_404 pdfStore "123456123456" pdfRecord
        (fun _ => .ok [emptyStoredMessage]) (fun _ => .ok [7]) (by decide)).2
      emptyStoredMessage [] rfl (by decide)⟩
